import Mathlib

/-!
Verification of the message-routing and ticket-lifecycle engine of `src/bot.js`
(ADNSUITBot).  The per-identity maps, the ticket store and the handlers of
`bot.js` are embedded as pure Lean functions; collaborators that live outside
`src/` (PhoneNormalizer, DataManager, RateLimiter) are modelled from the spec
and marked as such.
-/

namespace Bot

/-- An inbound channel message, as consumed by `handleMessage` (src/bot.js).
`mfrom` is the raw `message.from` address (`from` is a reserved word in Lean);
`author` is the in-group author id; `notifyName` models `message._data.notifyName`
(`none` when the channel supplies no display name); `mediaBytes` is the decoded
size of an attachment (`none` when `hasMedia` is false). -/
structure Msg where
  mfrom : String
  body : String
  author : Option String := none
  mediaBytes : Option Nat := none
  notifyName : Option String := none
  fromMe : Bool := false
deriving Repr, DecidableEq

/-- Per-identity ticket-wizard state, mirroring the `userState` object created by
`startNewTicket` (src/bot.js lines 1939-1945) and mutated by the step handlers.
The unread `startTime` field is omitted.  `corpus`, `room` and `problemType`
are `none` until the corresponding step stores them. -/
structure UserState where
  step : Nat
  username : String
  userPhone : String
  attempts : Nat
  corpus : Option String := none
  room : Option String := none
  problemType : Option String := none
deriving Repr, DecidableEq

/-- A row of the persistent `tickets` table, with the columns written by
`completeTicket`, `markSolved`, `handleLongTerm`, `handleAssign`,
`handleNoAssign` and `handleUnsolved` in src/bot.js. -/
structure Ticket where
  id : Nat
  user_id : String
  username : String
  phone : String
  corpus : String
  room : String
  problem_type : String
  status : String
  created_at : String
  solved_at : Option String := none
  assigned_admin : Option String := none
  assigned_admin_name : Option String := none
  solution : Option String := none
  solved_by_phone : Option String := none
deriving Repr, DecidableEq

/-- The ticket store.  Ids are assigned by the store, monotonically:
`nextId` is the id the next INSERT receives. -/
structure DB where
  tickets : List Ticket
  nextId : Nat
deriving Repr, DecidableEq

/-- `SELECT ... FROM tickets WHERE id = ?` for an already-parsed id.
`none` ids (a parameter that does not convert to a number) match no row. -/
def DB.getById (db : DB) (tid : Option Nat) : Option Ticket :=
  match tid with
  | none => none
  | some i => db.tickets.find? (fun t => t.id == i)

/-- `UPDATE tickets SET ... WHERE id = ?`: rewrite every row carrying `i`. -/
def DB.updateTicket (db : DB) (i : Nat) (f : Ticket → Ticket) : DB :=
  { db with tickets := db.tickets.map (fun t => if t.id == i then f t else t) }

/-- `INSERT INTO tickets ...`: appends the row under the fresh id and returns it
(`result.id` in src/bot.js line 2106). -/
def DB.insertTicket (db : DB) (t : Nat → Ticket) : DB × Nat :=
  ({ tickets := db.tickets ++ [t db.nextId], nextId := db.nextId + 1 }, db.nextId)

/-- The admin-login interception state machine per identity
(src/bot.js lines 1300-1377): `"ask_username"`, then
`(step := "ask_password", username)`. -/
inductive LoginState
  | askUsername
  | askPassword (username : String)
deriving Repr, DecidableEq

/-- One entry of the `messageSpam` sliding-window map
(src/bot.js lines 1174-1187). -/
structure SpamEntry where
  count : Nat
  lastReset : Nat
  warned : Bool
deriving Repr, DecidableEq

/-- Modelled from the spec (section 4.3): one `RateWindowCounter`, the
per-identity minute/hour/day counters of `utils/RateLimiter.js`, which is not
under `src/`. -/
structure RLEntry where
  minuteCount : Nat
  minuteStart : Nat
  hourCount : Nat
  hourStart : Nat
  dayCount : Nat
  dayStart : Nat
deriving Repr, DecidableEq

/-- The three rate-limit periods. -/
inductive RLPeriod
  | minute
  | hour
  | day
deriving Repr, DecidableEq

/-- Modelled from the spec (section 4.3): the result record of
`rateLimiter.canCreateTicket`, read by `startNewTicket`
(src/bot.js lines 1911-1929). -/
structure LimitCheck where
  allowed : Bool
  period : Option RLPeriod
  remainingTime : Nat
  currentCount : Nat
  maxLimit : Nat
deriving Repr, DecidableEq

/-- Point update of a `String`-keyed optional map (the JS `Map` set/delete). -/
def upd {α : Type} (f : String → Option α) (k : String) (v : Option α) :
    String → Option α :=
  fun x => if x = k then v else f x

/-- Point update of a `String`-keyed counter map (`failedLoginAttempts`;
a deleted key reads as 0 because the source reads it with `|| 0`). -/
def updN (f : String → Nat) (k : String) (v : Nat) : String → Nat :=
  fun x => if x = k then v else f x

/-!
String primitives.  The JS string operations of the source are embedded as
structurally recursive functions over the character list, so that every
concrete instance evaluates inside the kernel.
-/

/-- Scanner for `splitL`: `cur` is the reversed current piece, `skip` the
number of still-to-consume characters of a just-matched separator. -/
def splitGo (sep : List Char) : List Char → Nat → List Char →
    List (List Char)
  | [], _, cur => [cur.reverse]
  | _ :: cs, Nat.succ n, cur => splitGo sep cs n cur
  | c :: cs, 0, cur =>
    if sep ≠ [] ∧ sep.isPrefixOf (c :: cs) then
      cur.reverse :: splitGo sep cs (sep.length - 1) []
    else splitGo sep cs 0 (c :: cur)

/-- JS `String.prototype.split` with a non-empty string separator, on
character lists: split at each left-most non-overlapping occurrence. -/
def splitL (sep l : List Char) : List (List Char) :=
  splitGo sep l 0 []

/-- JS `String.prototype.split` with a string separator. -/
def jsSplit (s sep : String) : List String :=
  (splitL sep.toList s.toList).map String.mk

/-- JS `String.prototype.trim`: strip whitespace from both ends. -/
def trimS (s : String) : String :=
  String.mk
    (((s.toList.dropWhile Char.isWhitespace).reverse.dropWhile
      Char.isWhitespace).reverse)

/-- JS `String.prototype.toUpperCase` (ASCII letters). -/
def toUpperS (s : String) : String :=
  String.mk (s.toList.map Char.toUpper)

/-- JS `String.prototype.toLowerCase` (ASCII letters). -/
def toLowerS (s : String) : String :=
  String.mk (s.toList.map Char.toLower)

/-- Number of characters of a string. -/
def lengthS (s : String) : Nat :=
  s.toList.length

/-- The longest leading run of characters satisfying `p`. -/
def takeWhileS (s : String) (p : Char → Bool) : String :=
  String.mk (s.toList.takeWhile p)

/-- Drop the first `n` characters. -/
def dropS (s : String) (n : Nat) : String :=
  String.mk (s.toList.drop n)

/-- Take the first `n` characters. -/
def takeS (s : String) (n : Nat) : String :=
  String.mk (s.toList.take n)

/-- JS `String.prototype.startsWith`. -/
def startsWithS (s p : String) : Bool :=
  p.toList.isPrefixOf s.toList

/-- JS `String.prototype.endsWith`. -/
def endsWithS (s p : String) : Bool :=
  p.toList.reverse.isPrefixOf s.toList.reverse

/-- Whether some character of `s` satisfies `p`. -/
def anyS (s : String) (p : Char → Bool) : Bool :=
  s.toList.any p

/-- Whether every character of `s` satisfies `p`. -/
def allS (s : String) (p : Char → Bool) : Bool :=
  s.toList.all p

/-- Decimal value of a digit list. -/
def digitsToNat (acc : Nat) : List Char → Nat
  | [] => acc
  | c :: cs => digitsToNat (acc * 10 + (c.toNat - 48)) cs

/-- Parse a non-empty all-digit string as a natural number (`none`
otherwise). -/
def toNatS (s : String) : Option Nat :=
  if s.toList ≠ [] ∧ s.toList.all Char.isDigit then
    some (digitsToNat 0 s.toList)
  else none

/-- JS `String.prototype.replace` with a string pattern: replace the
left-most occurrence only. -/
def replaceFirstL (pat rep : List Char) : List Char → List Char
  | [] => []
  | c :: cs =>
    if pat ≠ [] ∧ pat.isPrefixOf (c :: cs) then
      rep ++ (c :: cs).drop pat.length
    else c :: replaceFirstL pat rep cs

/-- JS `String.prototype.replace` on strings. -/
def replaceFirstS (s pat rep : String) : String :=
  String.mk (replaceFirstL pat.toList rep.toList s.toList)

/-- `Array.prototype.join` / `String.intercalate`. -/
def joinSep (sep : String) (parts : List String) : String :=
  String.mk (List.intercalate sep.toList (parts.map String.toList))

/-- JS `String.prototype.split` with the regex `\s+` applied to a trimmed
string: the whitespace-separated words. -/
def splitWs (s : String) : List String :=
  ((s.toList.splitOnP Char.isWhitespace).filter (fun l => l ≠ [])).map
    String.mk

/-- Modelled from the spec (section 4.1): `utils/PhoneNormalizer.normalize`,
which is not under `src/` — canonical digits-only representation of a raw
address (channel suffix and leading plus stripped), or a failure sentinel
(`none`) when the input is not phone-like. -/
def normalizePhone (raw : String) : Option String :=
  let base := (jsSplit raw "@").headD raw
  let noPlus := if startsWithS base "+" then dropS base 1 else base
  if lengthS noPlus > 0 && allS noPlus Char.isDigit then some noPlus else none

/-- Modelled from the spec (section 6): `utils/PhoneNormalizer.extractSenderId`,
which is not under `src/` — the raw sender identifier of a message: the author
for group messages, the peer address otherwise. -/
def extractSenderId (m : Msg) (isGroup : Bool) : String :=
  if isGroup then m.author.getD m.mfrom else m.mfrom

/-- Modelled from the spec (section 4.2): `dataManager.isBanned` of
`utils/DataManager.js` (not under `src/`) — membership in the Ban Registry. -/
def isBanned (banned : List String) (p : String) : Bool :=
  banned.contains p

/-- `isBanned` applied to a possibly-failed normalization (the source guards
these calls with the truthiness of the normalized value). -/
def bannedO (banned : List String) : Option String → Bool
  | none => false
  | some p => isBanned banned p

/-- Modelled from the spec (section 4.2): `dataManager.banUser` — idempotent
insertion into the Ban Registry. -/
def banUser (banned : List String) (p : String) : List String :=
  if banned.contains p then banned else p :: banned

/-- `banUser` on a possibly-failed normalization: a failure sentinel is not a
canonical Identity and is not recorded (spec section 3, BanEntry). -/
def banUserO (banned : List String) : Option String → List String
  | none => banned
  | some p => banUser banned p

/-- Modelled from the spec (section 4.2): `dataManager.unbanUser` — removal,
reporting whether the entry was present. -/
def unbanUser (banned : List String) (p : String) : Bool × List String :=
  if banned.contains p then (true, banned.erase p) else (false, banned)

/-- `isAdmin` on a possibly-failed normalization (as called at
src/bot.js line 1488). -/
def isAdminO (admins : List String) : Option String → Bool
  | none => false
  | some p => admins.contains p

/-- Effective count of one rate window at time `now`: elapsed windows
(`now - windowStart > periodLengthMs`) read as 0.  Modelled from the spec
(section 4.3). -/
def winCount (count start now len : Nat) : Nat :=
  if now - start > len then 0 else count

/-- Modelled from the spec (section 4.3): `rateLimiter.canCreateTicket` —
checks the minute (max 1), hour (max 5) and day (max 20) windows in turn and
reports the violated period and remaining time on denial. -/
def canCreateTicket (rate : String → Option RLEntry) (phone : String)
    (now : Nat) : LimitCheck :=
  match rate phone with
  | none =>
    { allowed := true, period := none, remainingTime := 0, currentCount := 0,
      maxLimit := 0 }
  | some e =>
    let mc := winCount e.minuteCount e.minuteStart now 60000
    let hc := winCount e.hourCount e.hourStart now 3600000
    let dc := winCount e.dayCount e.dayStart now 86400000
    if mc ≥ 1 then
      { allowed := false, period := some .minute,
        remainingTime := 60000 - (now - e.minuteStart), currentCount := mc,
        maxLimit := 1 }
    else if hc ≥ 5 then
      { allowed := false, period := some .hour,
        remainingTime := 3600000 - (now - e.hourStart), currentCount := hc,
        maxLimit := 5 }
    else if dc ≥ 20 then
      { allowed := false, period := some .day,
        remainingTime := 86400000 - (now - e.dayStart), currentCount := dc,
        maxLimit := 20 }
    else
      { allowed := true, period := none, remainingTime := 0,
        currentCount := mc, maxLimit := 1 }

/-- One window bump for `recordTicketCreation`: restart an elapsed window,
increment a live one.  Modelled from the spec (section 4.3). -/
def bumpWin (count start now len : Nat) : Nat × Nat :=
  if now - start > len then (1, now) else (count + 1, start)

/-- Modelled from the spec (section 4.3): `rateLimiter.recordTicketCreation` —
commits a successful ticket creation to all three windows. -/
def recordTicketCreation (rate : String → Option RLEntry) (phone : String)
    (now : Nat) : String → Option RLEntry :=
  match rate phone with
  | none =>
    let e : RLEntry :=
      { minuteCount := 1, minuteStart := now, hourCount := 1,
        hourStart := now, dayCount := 1, dayStart := now }
    upd rate phone (some e)
  | some e =>
    let m := bumpWin e.minuteCount e.minuteStart now 60000
    let h := bumpWin e.hourCount e.hourStart now 3600000
    let d := bumpWin e.dayCount e.dayStart now 86400000
    let e' : RLEntry :=
      { minuteCount := m.1, minuteStart := m.2, hourCount := h.1,
        hourStart := h.2, dayCount := d.1, dayStart := d.2 }
    upd rate phone (some e')

/-- The ordered command surface scanned by `handleCommands`
(src/bot.js lines 1430-1702), one tag per dispatch branch. -/
inductive Cmd
  | groupAdminBlocked
  | login
  | logout
  | adminGate
  | longphoto
  | announce
  | perf
  | logstats
  | groupid
  | helpCmd
  | solvedCmd
  | longCmd
  | listCmd
  | longList
  | statsCmd
  | todayCmd
  | ping
  | findCmd
  | sla
  | searchCmd
  | adminPerf
  | start
  | stop
  | idShow
  | mylimits
  | rateCmd
  | backup
  | langCmd
  | unsolvedCmd
  | exportCmd
  | logexportCmd
  | dbexportCmd
  | banCmd
  | unbanCmd
  | listbanCmd
  | adminAdd
  | adminListCmd
  | adminRemove
  | registerCmd
  | assignCmd
  | noassignCmd
deriving Repr, DecidableEq

/-- Observable outbound effects of one inbound message.  Each constructor
stands for one fixed reply template (or group notification, or security-log
write) of src/bot.js; payloads carry the data interpolated into the template.
Logging other than the two security audit writes named by the spec is not
recorded.  Reporting-only commands whose bodies read no state of this model
produce just their `unmodeled` tag. -/
inductive Eff
  | logBanned (phone body : String)
  | logAudit (sender body : String)
  | spamWarning
  | mediaTooBig
  | promptUsername
  | promptPassword
  | loginOk
  | logoutOk
  | loginWrong (attemptsLeft : Nat)
  | loginBan (phone : String)
  | loginRequired
  | welcome
  | rateDenied (period : Option RLPeriod) (warn : Bool)
  | onlyOneOrTwo
  | askRoom
  | roomTooLong
  | roomNoDigit
  | roomRangeC1
  | roomRangeC2
  | roomBadChars
  | roomSubRange
  | problemList
  | askCustom
  | badChoice
  | customTooLong
  | customEmpty
  | ticketOk (id : Nat)
  | groupNewTicket (id : Nat)
  | tooManyAttempts
  | stepError
  | stopOk
  | stopNone
  | idShowReply
  | assignUsage
  | assignBusy (heldId : Nat)
  | assignNotFound (tid : String)
  | assignSolved (tid : String)
  | assignLong (tid : String)
  | assignMine
  | assignTakenBy (name : String)
  | assignOk (tid : String)
  | groupAssigned (tid : String) (name : String)
  | noassignUsage
  | noassignNotFound (tid : String)
  | noassignNotYours
  | noassignSolved
  | noassignOk (tid : String)
  | groupNoassign (tid : String) (name : String)
  | solvedUsage
  | ticketNotFound
  | alreadySolved
  | solvedReport (id : Nat)
  | longUsage
  | longWrongStatus (status : String)
  | longReport (id : Nat)
  | unsolvedUsage
  | notSolvedInfo
  | reopenOk (id : Nat)
  | banUsage
  | banBadNumber
  | banAlreadyBanned (phone : String)
  | banOk (phone : String)
  | unbanUsage
  | unbanBadNumber
  | unbanOk (phone : String)
  | unbanNotFound (phone : String)
  | listBanEmpty
  | listBanList (count : Nat)
  | adminAddUsage
  | adminAddOk (phone : String)
  | adminAlready (phone : String)
  | adminRemoveUsage
  | adminRemoveBadNumber
  | adminRemoveOk (phone : String)
  | adminRemoveNotFound (phone : String)
  | adminListShown
  | registerUsage
  | registerOk (name : String)
  | unmodeled (c : Cmd)
deriving Repr

/-- Which router branch consumed the message: one tag per `return` site of
`handleMessage` (src/bot.js lines 1089-1391). -/
inductive Consumer
  | selfDrop
  | bannedDrop
  | spamDrop
  | emptyDrop
  | mediaDrop
  | bannedDrop2
  | greeting
  | loginStep
  | command (c : Cmd)
  | wizard
  | unconsumed
deriving Repr, DecidableEq

/-- The whole in-memory and persistent state the modelled core reads or
writes: the Ban Registry and admin allow-list (persistent, via DataManager),
the in-memory per-identity maps of the `ADNSUITBot` constructor
(src/bot.js lines 77-88), the `tickets` table and `admin_profiles` table, the
rate-limiter counters, and the configuration the core consumes. -/
structure BotState where
  banned : List String
  admins : List String
  adminSessions : List String
  adminLoginState : String → Option LoginState
  failedLoginAttempts : String → Nat
  userStates : String → Option UserState
  messageSpam : String → Option SpamEntry
  rate : String → Option RLEntry
  adminProfiles : String → Option String
  db : DB
  credUser : String
  credPass : String
  groupConfigured : Bool

/-- Result of routing one message: new state, outbound effects in emission
order, and the branch that consumed the message. -/
structure MRes where
  state : BotState
  effs : List Eff
  tag : Consumer

/-- Store a wizard state (in-place mutation of the `userStates` entry). -/
def putUS (st : BotState) (k : String) (us : UserState) : BotState :=
  { st with userStates := upd st.userStates k (some us) }

/-- `formatPhoneNumber` (src/bot.js lines 3254-3267).  The source replaces the
first occurrence of the suffix and plus; phone ids contain at most one of
each, so replace-all coincides. -/
def formatPhoneNumber (phone : String) : String :=
  if phone = "" then "Nömrə yoxdur"
  else
    let cleanPhone := replaceFirstS (replaceFirstS phone "@c.us" "") "+" ""
    if startsWithS cleanPhone "994" then
      let number := dropS cleanPhone 3
      if lengthS number = 9 then
        "+994 " ++ takeS number 2 ++ " " ++ takeS (dropS number 2) 3 ++ "-" ++
          takeS (dropS number 5) 2 ++ "-" ++ dropS number 7
      else "+" ++ cleanPhone
    else "+" ++ cleanPhone

/-- The fixed problem catalog `problemTypesExtended`
(src/bot.js lines 97-114), 16 entries, entry 16 being the free-text option. -/
def problemTypesExtended (key : String) : Option String :=
  if key = "1" then some "💻 Kompüter işləmir"
  else if key = "2" then some "🖥️ Monitor yanmır"
  else if key = "3" then some "🧾 Printer işləmir"
  else if key = "4" then some "📡 İnternet problemi"
  else if key = "5" then some "💡 Projectorun lampası yanıb"
  else if key = "6" then some "Kompyuter və ya Sistem bloku yoxdur"
  else if key = "7" then some "⌨️ Klaviatura/Siçan işləmir"
  else if key = "8" then some "🔒 Proqram işləmir"
  else if key = "9" then some "📶 Wi-Fi problemi"
  else if key = "10" then some "💾 Format lazımdı"
  else if key = "11" then some "⚡ Enerji problemi"
  else if key = "12" then some "🌐 Veb səhifə açılmır"
  else if key = "13" then some "🔊 Səs sistemi işləmir"
  else if key = "14" then some "Projektor yoxdu"
  else if key = "15" then some "⚙️ Digər"
  else if key = "16" then some "✍️ Özüm yazacağam"
  else none

/-- JS `parseInt` as used on ticket-id arguments: the leading digit run of the
trimmed string, `none` when there is none (NaN). -/
def parseIntLead (s : String) : Option Nat :=
  toNatS (takeWhileS (trimS s) Char.isDigit)

/-- Strict numeric conversion for a string bound directly into an SQL integer
comparison (`handleAssign`/`handleNoAssign` pass `parts[1]` unparsed; SQLite
integer affinity converts a fully-numeric text and matches nothing
otherwise). -/
def sqlNat (s : String) : Option Nat :=
  toNatS s

/-- Scanner for `digitRuns`: `cur` is the reversed digit run in progress. -/
def digitRunsGo (cur : List Char) : List Char → List (List Char)
  | [] => if cur = [] then [] else [cur.reverse]
  | c :: cs =>
    if c.isDigit then digitRunsGo (c :: cur) cs
    else if cur = [] then digitRunsGo [] cs
    else cur.reverse :: digitRunsGo [] cs

/-- The maximal digit runs of a character list, in order — the matches of the
global regex `\d+` used on the tail of a room number
(src/bot.js line 2023). -/
def digitRuns (l : List Char) : List (List Char) :=
  digitRunsGo [] l

/-- `startNewTicket` (src/bot.js lines 1900-1950): safety ban check, rate-limit
gate, then install a fresh step-1 wizard state for the sender. -/
def startNewTicket (st : BotState) (m : Msg) (now : Nat) : BotState × List Eff :=
  let userPhone := m.mfrom
  let normalizedPhone := normalizePhone userPhone
  if bannedO st.banned normalizedPhone then (st, [])
  else
    let limitCheck := canCreateTicket st.rate userPhone now
    if limitCheck.allowed = false then
      (st, [.rateDenied limitCheck.period
        (limitCheck.currentCount ≥ limitCheck.maxLimit - 1)])
    else
      let userName := m.notifyName.getD "İstifadəçi"
      let userState : UserState :=
        { step := 1, username := userName, userPhone := userPhone,
          attempts := 0 }
      (putUS st userPhone userState, [.welcome])

/-- `handleStop` (src/bot.js lines 2965-2976): discard the wizard state if one
exists. -/
def handleStop (st : BotState) (m : Msg) : BotState × List Eff :=
  let userPhone := m.mfrom
  match st.userStates userPhone with
  | some _ =>
    ({ st with userStates := upd st.userStates userPhone none }, [.stopOk])
  | none => (st, [.stopNone])

/-- `handleStep1` (src/bot.js lines 1976-1984): `AwaitCorpus` — accept exactly
`"1"` or `"2"`. -/
def handleStep1 (st : BotState) (m : Msg) (us : UserState) :
    BotState × List Eff :=
  if m.body = "1" ∨ m.body = "2" then
    (putUS st us.userPhone { us with corpus := some m.body, step := 2 },
      [.askRoom])
  else (st, [.onlyOneOrTwo])

/-- `handleStep2` (src/bot.js lines 1986-2037): `AwaitRoom` — length, leading
digits, corpus range, tail charset and sub-number range checks. -/
def handleStep2 (st : BotState) (m : Msg) (us : UserState) :
    BotState × List Eff :=
  let roomNumber := toUpperS (trimS m.body)
  if lengthS roomNumber > 10 then (st, [.roomTooLong])
  else
    let digits := takeWhileS roomNumber Char.isDigit
    if digits = "" then (st, [.roomNoDigit])
    else
      let mainNumber := (toNatS digits).getD 0
      let restOfString := trimS (dropS roomNumber (lengthS digits))
      if us.corpus = some "1" ∧ (mainNumber < 101 ∨ mainNumber > 543) then
        (st, [.roomRangeC1])
      else if us.corpus = some "2" ∧ (mainNumber < 1101 ∨ mainNumber > 1644) then
        (st, [.roomRangeC2])
      else if anyS restOfString
          (fun c => !(('A' ≤ c ∧ c ≤ 'E') ∨ c.isDigit ∨ c.isWhitespace)) then
        (st, [.roomBadChars])
      else if (digitRuns restOfString.toList).any
          (fun r => (toNatS (String.mk r)).getD 0 < 1 ∨
            (toNatS (String.mk r)).getD 0 > 13) then
        (st, [.roomSubRange])
      else
        (putUS st us.userPhone { us with room := some roomNumber, step := 3 },
          [.problemList])

/-- `completeTicket` (src/bot.js lines 2086-2142), success path: INSERT the
ticket with status `open`, record the creation in the rate limiter, confirm to
the requester, notify the escalation group when configured, and discard the
wizard state.  The internal catch (lines 2136-2140), which apologizes and
discards the state when the INSERT or confirmation fails, is outside the
failure model used here (failures are injected at `continueTicket`, the only
catch that counts attempts). -/
def completeTicket (st : BotState) (us : UserState) (nowStr : String)
    (now : Nat) : BotState × List Eff :=
  let mk : Nat → Ticket := fun i =>
    { id := i, user_id := us.userPhone, username := us.username,
      phone := formatPhoneNumber us.userPhone, corpus := us.corpus.getD "",
      room := us.room.getD "", problem_type := us.problemType.getD "",
      status := "open", created_at := nowStr }
  let ins := st.db.insertTicket mk
  let st' :=
    { st with db := ins.1,
              rate := recordTicketCreation st.rate us.userPhone now,
              userStates := upd st.userStates us.userPhone none }
  (st', [.ticketOk ins.2] ++ if st.groupConfigured then [.groupNewTicket ins.2] else [])

/-- `handleStep3` (src/bot.js lines 2051-2067): `AwaitProblemChoice` — `"16"`
opens the free-text step, any other valid catalog key completes the ticket. -/
def handleStep3 (st : BotState) (m : Msg) (us : UserState) (nowStr : String)
    (now : Nat) : BotState × List Eff :=
  let choice := trimS m.body
  if choice = "16" then
    (putUS st us.userPhone { us with step := 4 }, [.askCustom])
  else
    match problemTypesExtended choice with
    | none => (st, [.badChoice])
    | some label =>
      let us' := { us with problemType := some label }
      completeTicket (putUS st us.userPhone us') us' nowStr now

/-- `handleStep4` (src/bot.js lines 2069-2084): `AwaitCustomProblem` —
free text of 1 to 100 characters completes the ticket. -/
def handleStep4 (st : BotState) (m : Msg) (us : UserState) (nowStr : String)
    (now : Nat) : BotState × List Eff :=
  let customProblem := trimS m.body
  if lengthS customProblem > 100 then (st, [.customTooLong])
  else if lengthS customProblem = 0 then (st, [.customEmpty])
  else
    let us' := { us with problemType := some customProblem }
    completeTicket (putUS st us.userPhone us') us' nowStr now

/-- `handleTicketError` (src/bot.js lines 3291-3303): after a processing
failure, terminate the wizard with an apology once the attempt counter has
reached 3, otherwise keep the state and ask to retry. -/
def handleTicketError (st : BotState) (userPhone : String) :
    BotState × List Eff :=
  match st.userStates userPhone with
  | none => (st, [])
  | some us =>
    if us.attempts ≥ 3 then
      ({ st with userStates := upd st.userStates userPhone none },
        [.tooManyAttempts])
    else (st, [.stepError])

/-- `continueTicket` (src/bot.js lines 1956-1974): bump the attempt counter
(which counts every wizard reply) and dispatch on the step.  `fail` injects an
unhandled runtime failure (a collaborator throwing while this reply is
processed), which the source catches at lines 1970-1973 and routes to
`handleTicketError`; the attempt increment at line 1962 precedes the throw. -/
def continueTicket (st : BotState) (m : Msg) (now : Nat) (nowStr : String)
    (fail : Bool) : BotState × List Eff :=
  let userPhone := m.mfrom
  match st.userStates userPhone with
  | none => (st, [])
  | some us0 =>
    let us := { us0 with attempts := us0.attempts + 1 }
    let st1 := putUS st userPhone us
    if fail then handleTicketError st1 userPhone
    else
      if us.step = 1 then handleStep1 st1 m us
      else if us.step = 2 then handleStep2 st1 m us
      else if us.step = 3 then handleStep3 st1 m us nowStr now
      else if us.step = 4 then handleStep4 st1 m us nowStr now
      else (st1, [])

/-- JS `String.prototype.includes`: substring containment. -/
def containsSub (s sub : String) : Bool :=
  (jsSplit s sub).length > 1

/-- `handleUnsolved` (src/bot.js lines 1392-1427): reopen a solved ticket —
`UPDATE tickets SET status = 'open', solved_at = NULL, assigned_admin = NULL,
solution = NULL WHERE id = ?`. -/
def handleUnsolved (st : BotState) (m : Msg) : BotState × List Eff :=
  let parts := jsSplit m.body " "
  if parts.length < 2 then (st, [.unsolvedUsage])
  else
    let tid := parseIntLead (parts.getD 1 "")
    match st.db.getById tid with
    | none => (st, [.ticketNotFound])
    | some ticket =>
      if ticket.status ≠ "solved" then (st, [.notSolvedInfo])
      else
        let db' := st.db.updateTicket ticket.id (fun t =>
          { t with status := "open", solved_at := none,
                   assigned_admin := none, solution := none })
        ({ st with db := db' }, [.reopenOk ticket.id])

/-- `markSolved` (src/bot.js lines 2172-2233): solve a not-yet-solved ticket,
stamping solution, solver and solve time. -/
def markSolved (st : BotState) (m : Msg) (adminName : String)
    (nowStr : String) : BotState × List Eff :=
  let parts := jsSplit m.body " "
  if parts.length < 3 then (st, [.solvedUsage])
  else
    let solution := joinSep " " (parts.drop 2)
    match st.db.getById (parseIntLead (parts.getD 1 "")) with
    | none => (st, [.ticketNotFound])
    | some ticket =>
      if ticket.status = "solved" then (st, [.alreadySolved])
      else
        let adminPhone := normalizePhone m.mfrom
        let actualAdminName := (adminPhone.bind st.adminProfiles).getD adminName
        let db' := st.db.updateTicket ticket.id (fun t =>
          { t with status := "solved", assigned_admin := adminPhone,
                   assigned_admin_name := some actualAdminName,
                   solution := some solution, solved_at := some nowStr,
                   solved_by_phone := adminPhone })
        ({ st with db := db' }, [.solvedReport ticket.id])

/-- `handleLongTerm` (src/bot.js lines 2235-2288): move an open ticket to
`long_term`, stamping the admin and reusing the `solved_at` slot as the marked
time. -/
def handleLongTerm (st : BotState) (m : Msg) (adminName : String)
    (nowStr : String) : BotState × List Eff :=
  let parts := jsSplit m.body " "
  if parts.length < 2 then (st, [.longUsage])
  else
    match st.db.getById (parseIntLead (parts.getD 1 "")) with
    | none => (st, [.ticketNotFound])
    | some ticket =>
      if ticket.status ≠ "open" then (st, [.longWrongStatus ticket.status])
      else
        let adminPhone := normalizePhone m.mfrom
        let actualAdminName := (adminPhone.bind st.adminProfiles).getD adminName
        let db' := st.db.updateTicket ticket.id (fun t =>
          { t with status := "long_term", assigned_admin := adminPhone,
                   assigned_admin_name := some actualAdminName,
                   solved_at := some nowStr })
        ({ st with db := db' }, [.longReport ticket.id])

/-- The Boolean row filter of the active-assignment query of `handleAssign`
(src/bot.js lines 3127-3130): `assigned_admin = ?` with
`status NOT IN ('solved', 'long_term')`. -/
def isActiveFor (a : String) (t : Ticket) : Bool :=
  t.assigned_admin == some a && !(t.status == "solved" || t.status == "long_term")

/-- `handleAssign` (src/bot.js lines 3101-3185): private-only; rejects when the
caller already holds a non-terminal assigned ticket (naming it), when the
target is missing, solved, long-term or already assigned; otherwise sets the
assigned admin.  A NULL `assigned_admin = ?` comparison matches no row. -/
def handleAssign (st : BotState) (m : Msg) : BotState × List Eff :=
  if endsWithS m.mfrom "@g.us" then (st, [])
  else
    let parts := jsSplit m.body " "
    if parts.length < 2 then (st, [.assignUsage])
    else
      let ticketId := parts.getD 1 ""
      let adminPhone := normalizePhone m.mfrom
      let adminName :=
        ((adminPhone.bind st.adminProfiles)).getD
          (m.notifyName.getD (adminPhone.getD ""))
      let activeTicket :=
        match adminPhone with
        | none => none
        | some a => st.db.tickets.find? (isActiveFor a)
      match activeTicket with
      | some held => (st, [.assignBusy held.id])
      | none =>
        match st.db.getById (sqlNat ticketId) with
        | none => (st, [.assignNotFound ticketId])
        | some ticket =>
          if ticket.status = "solved" then (st, [.assignSolved ticketId])
          else if ticket.status = "long_term" then (st, [.assignLong ticketId])
          else
            match ticket.assigned_admin with
            | some a =>
              if adminPhone = some a then (st, [.assignMine])
              else
                let assignedName := (st.adminProfiles a).getD a
                (st, [.assignTakenBy assignedName])
            | none =>
              let db' := st.db.updateTicket ticket.id (fun t =>
                { t with assigned_admin := adminPhone,
                         assigned_admin_name := some adminName })
              ({ st with db := db' },
                [.assignOk ticketId] ++
                  if st.groupConfigured then [.groupAssigned ticketId adminName]
                  else [])

/-- `handleNoAssign` (src/bot.js lines 3187-3247): private-only; the holder of
a non-solved ticket clears its assignment. -/
def handleNoAssign (st : BotState) (m : Msg) : BotState × List Eff :=
  if endsWithS m.mfrom "@g.us" then (st, [])
  else
    let parts := jsSplit m.body " "
    if parts.length < 2 then (st, [.noassignUsage])
    else
      let ticketId := parts.getD 1 ""
      let adminPhone := normalizePhone m.mfrom
      let adminName :=
        ((adminPhone.bind st.adminProfiles)).getD
          (m.notifyName.getD (adminPhone.getD ""))
      match st.db.getById (sqlNat ticketId) with
      | none => (st, [.noassignNotFound ticketId])
      | some ticket =>
        if ticket.assigned_admin ≠ adminPhone then (st, [.noassignNotYours])
        else if ticket.status = "solved" then (st, [.noassignSolved])
        else
          let db' := st.db.updateTicket ticket.id (fun t =>
            { t with assigned_admin := none, assigned_admin_name := none })
          ({ st with db := db' },
            [.noassignOk ticketId] ++
              if st.groupConfigured then [.groupNoassign ticketId adminName]
              else [])

/-- `handleBan` (src/bot.js lines 2704-2746): ban the normalized argument. -/
def handleBan (st : BotState) (m : Msg) : BotState × List Eff :=
  let parts := jsSplit m.body " "
  if parts.length < 2 then (st, [.banUsage])
  else
    match normalizePhone (parts.getD 1 "") with
    | none => (st, [.banBadNumber])
    | some normalized =>
      if isBanned st.banned normalized then (st, [.banAlreadyBanned normalized])
      else ({ st with banned := banUser st.banned normalized },
        [.banOk normalized])

/-- `handleUnban` (src/bot.js lines 2748-2789): unban the normalized
argument. -/
def handleUnban (st : BotState) (m : Msg) : BotState × List Eff :=
  let parts := jsSplit m.body " "
  if parts.length < 2 then (st, [.unbanUsage])
  else
    match normalizePhone (parts.getD 1 "") with
    | none => (st, [.unbanBadNumber])
    | some normalized =>
      let r := unbanUser st.banned normalized
      if r.1 then ({ st with banned := r.2 }, [.unbanOk normalized])
      else (st, [.unbanNotFound normalized])

/-- `handleListBan` (src/bot.js lines 2791-2813): report the Ban Registry. -/
def handleListBan (st : BotState) : BotState × List Eff :=
  if st.banned.length = 0 then (st, [.listBanEmpty])
  else (st, [.listBanList st.banned.length])

/-- `handleAdminAdd` (src/bot.js lines 2815-2870): append `@c.us` when no
channel suffix is present, then add to the persistent admin allow-list.  The
dashboard temp-password machinery writes a table outside this model. -/
def handleAdminAdd (st : BotState) (m : Msg) : BotState × List Eff :=
  let parts := jsSplit m.body " "
  if parts.length < 3 then (st, [.adminAddUsage])
  else
    let raw := parts.getD 2 ""
    let phoneNumber :=
      if !containsSub raw "@c.us" && !containsSub raw "@g.us" then
        raw ++ "@c.us"
      else raw
    if st.admins.contains phoneNumber then (st, [.adminAlready phoneNumber])
    else ({ st with admins := phoneNumber :: st.admins },
      [.adminAddOk phoneNumber])

/-- `handleAdminRemove` (src/bot.js lines 2901-2943): remove the allow-list
entry whose normalization matches the normalized argument. -/
def handleAdminRemove (st : BotState) (m : Msg) : BotState × List Eff :=
  let parts := jsSplit m.body " "
  if parts.length < 3 then (st, [.adminRemoveUsage])
  else
    match normalizePhone (parts.getD 2 "") with
    | none => (st, [.adminRemoveBadNumber])
    | some normalizedInput =>
      match st.admins.find? (fun a => normalizePhone a == some normalizedInput) with
      | some foundAdmin =>
        ({ st with admins := st.admins.erase foundAdmin },
          [.adminRemoveOk foundAdmin])
      | none => (st, [.adminRemoveNotFound normalizedInput])

/-- `handleRegister` (src/bot.js lines 3075-3099): record the caller's display
name in `admin_profiles` (INSERT OR REPLACE).  An unnormalizable sender would
store under the SQL NULL key, which no modelled read consults. -/
def handleRegister (st : BotState) (m : Msg) : BotState × List Eff :=
  let parts := splitWs (trimS m.body)
  if parts.length < 2 then (st, [.registerUsage])
  else
    let name := joinSep " " (parts.drop 1)
    match normalizePhone m.mfrom with
    | some phone =>
      ({ st with adminProfiles := upd st.adminProfiles phone (some name) },
        [.registerOk name])
    | none => (st, [.registerOk name])

/-- The admin commands silently blocked in groups (src/bot.js lines
1443-1446), matched as whole command or as prefix followed by a space. -/
def isAdminCmdInGroup (b : String) : Bool :=
  ["/ban", "/unban", "/listban", "/admin", "/export", "/logexport",
    "/databaseexport", "/login", "/logout"].any
    (fun c => b == c || startsWithS b (c ++ " "))

/-- The command shapes behind the admin session gate
(src/bot.js lines 1478-1486). -/
def needsAdminGate (b : String) : Bool :=
  startsWithS b "/ban" || startsWithS b "/unban" || b == "/listban" ||
    startsWithS b "/admin" || b == "/export" || b == "/logexport" ||
    b == "/databaseexport"

/-- `handleCommands` (src/bot.js lines 1430-1702): first match wins over the
fixed ordered prefix list; `none` when no command matched (the source's
`return false`).  The pair carries the dispatched branch and its outcome. -/
def handleCommands (st : BotState) (m : Msg) (messageBody : String)
    (isGroup : Bool) (now : Nat) (nowStr : String) :
    Option (Cmd × BotState × List Eff) :=
  if isGroup && isAdminCmdInGroup messageBody then
    some (.groupAdminBlocked, st, [])
  else if !isGroup && messageBody == "/login" then
    let ls := upd st.adminLoginState m.mfrom (some .askUsername)
    some (.login, { st with adminLoginState := ls }, [.promptUsername])
  else if !isGroup && messageBody == "/logout" then
    some (.logout, { st with adminSessions := st.adminSessions.erase m.mfrom },
      [.logoutOk])
  else if needsAdminGate messageBody &&
      !(st.adminSessions.contains m.mfrom) &&
      !(isAdminO st.admins (normalizePhone m.mfrom)) then
    some (.adminGate, st, [.loginRequired])
  else if isGroup && startsWithS messageBody "/longphoto" then
    some (.longphoto, st, [.unmodeled .longphoto])
  else if isGroup && startsWithS messageBody "/announce" then
    some (.announce, st, [.unmodeled .announce])
  else if isGroup && messageBody == "/performance" then
    some (.perf, st, [.unmodeled .perf])
  else if isGroup && messageBody == "/logstats" then
    some (.logstats, st, [.unmodeled .logstats])
  else if isGroup && messageBody == "/groupid" then
    some (.groupid, st, [.unmodeled .groupid])
  else if isGroup && messageBody == "/help" then
    some (.helpCmd, st, [.unmodeled .helpCmd])
  else if isGroup && startsWithS messageBody "/solved" then
    let r := markSolved st m (m.notifyName.getD "İstifadəçi") nowStr
    some (.solvedCmd, r.1, r.2)
  else if isGroup && startsWithS messageBody "/long" &&
      !containsSub messageBody "list" then
    let r := handleLongTerm st m (m.notifyName.getD "İstifadəçi") nowStr
    some (.longCmd, r.1, r.2)
  else if isGroup && messageBody == "/list" then
    some (.listCmd, st, [.unmodeled .listCmd])
  else if isGroup && messageBody == "/long list" then
    some (.longList, st, [.unmodeled .longList])
  else if isGroup && messageBody == "/stats" then
    some (.statsCmd, st, [.unmodeled .statsCmd])
  else if isGroup && messageBody == "/today" then
    some (.todayCmd, st, [.unmodeled .todayCmd])
  else if isGroup && messageBody == "/ping" then
    some (.ping, st, [.unmodeled .ping])
  else if isGroup && startsWithS messageBody "/find" then
    some (.findCmd, st, [.unmodeled .findCmd])
  else if isGroup && messageBody == "/sla" then
    some (.sla, st, [.unmodeled .sla])
  else if isGroup && startsWithS messageBody "/search" then
    some (.searchCmd, st, [.unmodeled .searchCmd])
  else if isGroup && messageBody == "/adminperformance" then
    some (.adminPerf, st, [.unmodeled .adminPerf])
  else if !isGroup && messageBody == "/start" then
    let r := startNewTicket st m now
    some (.start, r.1, r.2)
  else if !isGroup && messageBody == "/stop" then
    let r := handleStop st m
    some (.stop, r.1, r.2)
  else if !isGroup && messageBody == "/id show" then
    some (.idShow, st, [.idShowReply])
  else if messageBody == "/mylimits" then
    some (.mylimits, st, [.unmodeled .mylimits])
  else if startsWithS messageBody "/rate" then
    some (.rateCmd, st, [.unmodeled .rateCmd])
  else if !isGroup && messageBody == "/backup" then
    if isAdminO st.admins (normalizePhone m.mfrom) ||
        st.adminSessions.contains m.mfrom then
      some (.backup, st, [.unmodeled .backup])
    else some (.backup, st, [.loginRequired])
  else if messageBody == "/lang" || startsWithS messageBody "/lang " then
    some (.langCmd, st, [.unmodeled .langCmd])
  else if isGroup && startsWithS messageBody "/unsolved" then
    let r := handleUnsolved st m
    some (.unsolvedCmd, r.1, r.2)
  else if !isGroup && messageBody == "/export" then
    some (.exportCmd, st, [.unmodeled .exportCmd])
  else if !isGroup && messageBody == "/logexport" then
    some (.logexportCmd, st, [.unmodeled .logexportCmd])
  else if !isGroup && messageBody == "/databaseexport" then
    some (.dbexportCmd, st, [.unmodeled .dbexportCmd])
  else if startsWithS messageBody "/ban" then
    let r := handleBan st m
    some (.banCmd, r.1, r.2)
  else if startsWithS messageBody "/unban" then
    let r := handleUnban st m
    some (.unbanCmd, r.1, r.2)
  else if messageBody == "/listban" then
    let r := handleListBan st
    some (.listbanCmd, r.1, r.2)
  else if startsWithS messageBody "/admin add" then
    let r := handleAdminAdd st m
    some (.adminAdd, r.1, r.2)
  else if messageBody == "/admin list" then
    some (.adminListCmd, st, [.adminListShown])
  else if startsWithS messageBody "/admin remove" then
    let r := handleAdminRemove st m
    some (.adminRemove, r.1, r.2)
  else if startsWithS messageBody "/register" then
    let r := handleRegister st m
    some (.registerCmd, r.1, r.2)
  else if startsWithS messageBody "/assign" then
    let r := handleAssign st m
    some (.assignCmd, r.1, r.2)
  else if startsWithS messageBody "/noassign" then
    let r := handleNoAssign st m
    some (.noassignCmd, r.1, r.2)
  else if messageBody == "/stats" then
    some (.statsCmd, st, [.unmodeled .statsCmd])
  else if messageBody == "/today" then
    some (.todayCmd, st, [.unmodeled .todayCmd])
  else if startsWithS messageBody "/find" then
    some (.findCmd, st, [.unmodeled .findCmd])
  else none

/-- The guarded main part of `handleMessage` (src/bot.js lines 1224-1390):
body/media guards, defensive normalized ban re-check, greeting shortcut,
admin-login interception, command dispatch, wizard continuation. -/
def mainSection (st : BotState) (m : Msg) (isGroup : Bool)
    (senderIdRaw : String) (now : Nat) (nowStr : String) (fail : Bool) :
    MRes :=
  if m.body = "" ∧ m.mediaBytes = none then ⟨st, [], .emptyDrop⟩
  else if m.mediaBytes.getD 0 > 5 * 1024 * 1024 then
    ⟨st, [.mediaTooBig], .mediaDrop⟩
  else
    let userPhone := senderIdRaw
    let normalizedUserPhone := normalizePhone userPhone
    let messageBody := trimS m.body
    if bannedO st.banned normalizedUserPhone then ⟨st, [], .bannedDrop2⟩
    else if !isGroup && !(startsWithS messageBody "/") &&
        toLowerS messageBody == "salam" then
      let r := startNewTicket st m now
      ⟨r.1, r.2, .greeting⟩
    else
      match (if isGroup then none else st.adminLoginState m.mfrom) with
      | some .askUsername =>
        let ls := upd st.adminLoginState m.mfrom (some (.askPassword (trimS m.body)))
        ⟨{ st with adminLoginState := ls }, [.promptPassword], .loginStep⟩
      | some (.askPassword username) =>
        let password := trimS m.body
        let normalizedPhone := normalizePhone m.mfrom
        if username = st.credUser ∧ password = st.credPass then
          let sessions :=
            if st.adminSessions.contains m.mfrom then st.adminSessions
            else m.mfrom :: st.adminSessions
          let admins :=
            if st.admins.contains m.mfrom then st.admins
            else m.mfrom :: st.admins
          let ls := upd st.adminLoginState m.mfrom none
          let fla := updN st.failedLoginAttempts (normalizedPhone.getD "") 0
          ⟨{ st with adminSessions := sessions, adminLoginState := ls,
                     failedLoginAttempts := fla, admins := admins },
            [.loginOk], .loginStep⟩
        else
          let key := normalizedPhone.getD ""
          let newAttempts := st.failedLoginAttempts key + 1
          if newAttempts ≥ 3 then
            let fla := updN st.failedLoginAttempts key 0
            ⟨{ st with banned := banUserO st.banned normalizedPhone,
                       failedLoginAttempts := fla },
              [.loginBan key], .loginStep⟩
          else
            let fla := updN st.failedLoginAttempts key newAttempts
            let ls := upd st.adminLoginState m.mfrom none
            ⟨{ st with failedLoginAttempts := fla, adminLoginState := ls },
              [.loginWrong (3 - newAttempts)], .loginStep⟩
      | none =>
        match handleCommands st m messageBody isGroup now nowStr with
        | some (c, st', effs) => ⟨st', effs, .command c⟩
        | none =>
          if !isGroup && (st.userStates userPhone).isSome then
            let r := continueTicket st m now nowStr fail
            ⟨r.1, r.2, .wizard⟩
          else ⟨st, [], .unconsumed⟩

/-- One tick of the spam sliding window (src/bot.js lines 1174-1187): start,
restart after 60 s, or increment. -/
def spamBump (e : Option SpamEntry) (now : Nat) : SpamEntry :=
  match e with
  | none => { count := 1, lastReset := now, warned := false }
  | some e =>
    if now - e.lastReset > 60000 then
      { count := 1, lastReset := now, warned := false }
    else { e with count := e.count + 1 }

/-- `handleMessage` (src/bot.js lines 1089-1391): self-drop, first-line ban
gate (audit-log only, no reply), unconditional audit log, spam auto-ban for
private chats, then the guarded main section.  `now` is `Date.now()` in
milliseconds, `nowStr` the formatted Baku time, `fail` the wizard failure
injection of `continueTicket`. -/
def handleMessage (st : BotState) (m : Msg) (now : Nat) (nowStr : String)
    (fail : Bool) : MRes :=
  if m.fromMe then ⟨st, [], .selfDrop⟩
  else
    let isGroup := endsWithS m.mfrom "@g.us"
    let senderIdRaw := extractSenderId m isGroup
    let normalizedSender := normalizePhone senderIdRaw
    if bannedO st.banned normalizedSender then
      ⟨st, [.logBanned (normalizedSender.getD "") m.body], .bannedDrop⟩
    else
      let audit := Eff.logAudit m.mfrom m.body
      if isGroup then
        let r := mainSection st m isGroup senderIdRaw now nowStr fail
        ⟨r.state, audit :: r.effs, r.tag⟩
      else
        let senderId := (jsSplit m.mfrom "@").headD m.mfrom
        let e := spamBump (st.messageSpam senderId) now
        let st1 := { st with messageSpam := upd st.messageSpam senderId (some e) }
        if e.count > 10 then
          let pban := normalizePhone senderId
          if bannedO st1.banned pban then ⟨st1, [audit], .spamDrop⟩
          else
            let st2 := { st1 with banned := banUserO st1.banned pban }
            if e.warned then ⟨st2, [audit], .spamDrop⟩
            else
              let sp := upd st2.messageSpam senderId (some { e with warned := true })
              ⟨{ st2 with messageSpam := sp }, [audit, .spamWarning], .spamDrop⟩
        else
          let r := mainSection st1 m isGroup senderIdRaw now nowStr fail
          ⟨r.state, audit :: r.effs, r.tag⟩

/-- An empty ticket store whose first assigned id is 1. -/
def emptyDB : DB :=
  { tickets := [], nextId := 1 }

/-- A concrete quiescent bot state used by the witness instances: nothing
banned, no admins, no sessions, empty per-identity maps, empty store. -/
def baseState : BotState :=
  { banned := [], admins := [], adminSessions := [],
    adminLoginState := fun _ => none, failedLoginAttempts := fun _ => 0,
    userStates := fun _ => none, messageSpam := fun _ => none,
    rate := fun _ => none, adminProfiles := fun _ => none,
    db := emptyDB, credUser := "admin", credPass := "secret",
    groupConfigured := true }

/-- A plain private text message. -/
def mkMsg (sender body : String) : Msg :=
  { mfrom := sender, body := body }

/-- The raw address of the private requester used in concrete instances. -/
def uA : String := "994501234567@c.us"

/-- `uA` in canonical digits-only form. -/
def uAn : String := "994501234567"

/-- A solved ticket with a recorded solution, solve time and former admin
name, used by the concrete instances. -/
def tkSolved : Ticket :=
  { id := 9, user_id := "x", username := "X", phone := "p", corpus := "1",
    room := "205", problem_type := "pt", status := "solved",
    created_at := "c", solved_at := some "old_t", solution := some "old",
    assigned_admin_name := some "Old Admin" }

/-- A bot state whose store holds just `tkSolved`. -/
def stSolved : BotState :=
  { baseState with db := { tickets := [tkSolved], nextId := 10 } }

/-- The step-2 wizard state (corpus already collected) of the concrete
instances. -/
def usWiz : UserState :=
  { step := 2, username := "U", userPhone := uA, attempts := 1,
    corpus := some "1" }

/-- A bot state with a step-2 wizard in progress for `uA`. -/
def stWiz : BotState :=
  { baseState with userStates := upd baseState.userStates uA (some usWiz) }

/-- A bot state in which `uA` has an admin login in progress at the
username prompt. -/
def stLogin : BotState :=
  { baseState with
    adminLoginState := upd baseState.adminLoginState uA (some .askUsername) }

/-- A bot state in which `uA` is at the password prompt with two failed
attempts already recorded. -/
def stPw : BotState :=
  { baseState with
    adminLoginState :=
      upd baseState.adminLoginState uA (some (.askPassword "admin")),
    failedLoginAttempts := updN baseState.failedLoginAttempts uAn 2 }

/-- A fresh step-1 wizard state record for `uA` with no attempts yet. -/
def usWizA : UserState :=
  { step := 1, username := "U", userPhone := uA, attempts := 0 }

/-- A bot state holding the fresh wizard state `usWizA` for `uA`. -/
def stWizA : BotState :=
  { baseState with userStates := upd baseState.userStates uA (some usWizA) }

/-- The step-3 wizard state record after two successfully handled replies
(attempt counter 2, no failures yet). -/
def usWiz3 : UserState :=
  { step := 3, username := "U", userPhone := uA, attempts := 2,
    corpus := some "1", room := some "205" }

/-- A bot state holding `usWiz3` for `uA`. -/
def stWiz3 : BotState :=
  { baseState with userStates := upd baseState.userStates uA (some usWiz3) }

/-- The one-active-ticket-per-admin invariant: for every admin identity, at
most one row of the store is assigned to it with a status that is neither
`solved` nor `long_term`. -/
def atMostOneActive (db : DB) : Prop :=
  ∀ a : String, db.tickets.countP (isActiveFor a) ≤ 1

/-- An open ticket held by admin `994509999999` (normalized). -/
def tkAssigned : Ticket :=
  { id := 5, user_id := "x", username := "X", phone := "p", corpus := "1",
    room := "205", problem_type := "pt", status := "open", created_at := "c",
    assigned_admin := some "994509999999",
    assigned_admin_name := some "Adm A" }

/-- An unassigned open ticket. -/
def tkOpen : Ticket :=
  { tkAssigned with id := 7, assigned_admin := none, assigned_admin_name := none }

/-- A bot state whose store holds `tkAssigned` and `tkOpen`. -/
def stAssign : BotState :=
  { baseState with db := { tickets := [tkAssigned, tkOpen], nextId := 8 } }

/-- The four-message happy-path wizard run of the spec: start the wizard,
then reply `"1"`, `"205"`, `"3"`, with every send succeeding. -/
def wizardRun3 (st : BotState) (u : String) (now : Nat) (nowStr : String) :
    BotState :=
  let s1 := (startNewTicket st (mkMsg u "salam") now).1
  let s2 := (continueTicket s1 (mkMsg u "1") now nowStr false).1
  let s3 := (continueTicket s2 (mkMsg u "205") now nowStr false).1
  (continueTicket s3 (mkMsg u "3") now nowStr false).1

/-- C1: for every inbound message whose normalized sender identity is in the
Ban Registry, the router performs no processing at all: the state is returned
untouched, the only effect is the audit-log record of the banned message, and
the consuming branch is the first-line ban gate — so no reply, no command
dispatch, no wizard step and no state mutation occur, whatever the body. -/
theorem c1_banned_identity_silent_drop (st : BotState) (m : Msg) (now : Nat)
    (nowStr : String) (fail : Bool) (p : String)
    (hself : m.fromMe = false)
    (hnorm : normalizePhone (extractSenderId m (endsWithS m.mfrom "@g.us")) = some p)
    (hban : isBanned st.banned p = true) :
    handleMessage st m now nowStr fail =
      ⟨st, [Eff.logBanned p m.body], Consumer.bannedDrop⟩ := by
  simp only [handleMessage, hself, Bool.false_eq_true, if_false, hnorm,
    bannedO, hban, if_true, Option.getD_some]

/-- C1 witness: a banned sender's valid `/start` command is dropped with only
the audit record. -/
theorem c1_banned_identity_silent_drop_witness :
    handleMessage { baseState with banned := [uAn] } (mkMsg uA "/start") 0 "t"
        false =
      ⟨{ baseState with banned := [uAn] }, [Eff.logBanned uAn "/start"],
        Consumer.bannedDrop⟩ :=
  c1_banned_identity_silent_drop _ _ 0 "t" false uAn rfl (by decide) (by decide)

/-- C7: `/solved <id> <text>` on a ticket that is already `solved` is rejected
with the already-solved message and the whole state — in particular the
ticket's `solved_at`, `solution`, status and assigned admin — is returned
unchanged. -/
theorem c7_solved_twice_rejected (st : BotState) (m : Msg) (adminName : String)
    (nowStr : String) (t : Ticket)
    (hparts : 3 ≤ (jsSplit m.body " ").length)
    (hget : st.db.getById (parseIntLead ((jsSplit m.body " ").getD 1 "")) = some t)
    (hst : t.status = "solved") :
    markSolved st m adminName nowStr = (st, [Eff.alreadySolved]) := by
  have h2 : ¬ ((jsSplit m.body " ").length < 3) := by omega
  simp only [List.getD_eq_getElem?_getD] at hget
  simp [markSolved, h2, hget, hst]

/-- C7 witness: re-solving solved ticket 9 is rejected and the store keeps the
old solution and solve time. -/
theorem c7_solved_twice_rejected_witness :
    markSolved stSolved (mkMsg uA "/solved 9 fixed") "Adm" "t" =
      (stSolved, [Eff.alreadySolved]) :=
  c7_solved_twice_rejected _ _ "Adm" "t" tkSolved (by decide) (by decide) rfl

/-- In an UPDATE-by-id over a row list, the first row found under an id whose
rewrite preserves ids is the rewrite of the first row previously found. -/
theorem find_updateTicket (l : List Ticket) (i : Nat) (f : Ticket → Ticket)
    (hf : ∀ t, (f t).id = t.id) (t : Ticket)
    (h : l.find? (fun x => x.id == i) = some t) :
    (l.map (fun x => if x.id == i then f x else x)).find?
      (fun x => x.id == i) = some (f t) := by
  induction l with
  | nil => simp at h
  | cons a l ih =>
    by_cases hc : (a.id == i) = true
    · simp only [List.find?_cons, hc] at h
      injection h with h
      subst h
      have ha : a.id = i := by simpa using hc
      simp [List.map_cons, List.find?_cons, ha, hf]
    · have hc' : (a.id == i) = false := by simpa using hc
      simp only [List.find?_cons, hc'] at h
      simp only [List.map_cons, List.find?_cons, hc', Bool.false_eq_true,
        if_false]
      exact ih h

/-- Rows not carrying the updated id survive an UPDATE-by-id unchanged. -/
theorem mem_updateTicket (l : List Ticket) (i : Nat) (f : Ticket → Ticket)
    (t2 : Ticket) (h : t2 ∈ l) (hne : t2.id ≠ i) :
    t2 ∈ l.map (fun x => if x.id == i then f x else x) := by
  refine List.mem_map.mpr ⟨t2, h, ?_⟩
  simp [hne]

/-- C10: reopening a solved ticket with `/unsolved` rewrites exactly the four
columns of its UPDATE — status becomes `open`, `solved_at`, `assigned_admin`
and `solution` become NULL — and leaves every other column, in particular
`assigned_admin_name`, and every other row and state component unchanged, so
a reopened ticket can keep the former admin's display name while its
`assigned_admin` is NULL. -/
theorem c10_reopen_frame (st : BotState) (m : Msg) (t : Ticket)
    (hparts : 2 ≤ (jsSplit m.body " ").length)
    (hget : st.db.getById (parseIntLead ((jsSplit m.body " ").getD 1 "")) =
      some t)
    (hst : t.status = "solved") :
    (handleUnsolved st m).2 = [Eff.reopenOk t.id] ∧
    (handleUnsolved st m).1.db.getById (some t.id) =
      some { t with status := "open", solved_at := none,
                    assigned_admin := none, solution := none } ∧
    (∀ t2 ∈ st.db.tickets, t2.id ≠ t.id →
      t2 ∈ (handleUnsolved st m).1.db.tickets) ∧
    (handleUnsolved st m).1.userStates = st.userStates ∧
    (handleUnsolved st m).1.banned = st.banned := by
  have h2 : ¬ ((jsSplit m.body " ").length < 2) := by omega
  obtain ⟨i, hpi, hfind⟩ : ∃ i,
      parseIntLead ((jsSplit m.body " ").getD 1 "") = some i ∧
      st.db.tickets.find? (fun x => x.id == i) = some t := by
    revert hget
    unfold DB.getById
    cases parseIntLead ((jsSplit m.body " ").getD 1 "") with
    | none => intro h; cases h
    | some i => intro h; exact ⟨i, rfl, h⟩
  have hti : (t.id == i) = true := by
    simpa using List.find?_some hfind
  have hid : t.id = i := by simpa using hti
  subst hid
  have hrun : handleUnsolved st m =
      ({ st with db := st.db.updateTicket t.id (fun x =>
          { x with status := "open", solved_at := none,
                   assigned_admin := none, solution := none }) },
        [Eff.reopenOk t.id]) := by
    simp only [List.getD_eq_getElem?_getD] at hpi
    simp [handleUnsolved, h2, DB.getById, hpi, hfind, hst]
  refine ⟨by rw [hrun], ?_, ?_, by rw [hrun], by rw [hrun]⟩
  · rw [hrun]
    simp only [DB.getById, DB.updateTicket]
    exact find_updateTicket st.db.tickets t.id
      (fun x => { x with status := "open", solved_at := none,
                         assigned_admin := none, solution := none })
      (fun _ => rfl) t hfind
  · intro t2 ht2 hne
    rw [hrun]
    exact mem_updateTicket _ _ _ t2 ht2 hne

/-- C10 witness: reopening solved ticket 9 clears status, `solved_at`,
`assigned_admin` and `solution` while `assigned_admin_name` keeps
`"Old Admin"`. -/
theorem c10_reopen_frame_witness :
    (handleUnsolved stSolved (mkMsg uA "/unsolved 9")).2 =
      [Eff.reopenOk 9] ∧
    (handleUnsolved stSolved (mkMsg uA "/unsolved 9")).1.db.getById (some 9) =
      some { tkSolved with status := "open", solved_at := none,
                           assigned_admin := none, solution := none } := by
  have h := c10_reopen_frame stSolved (mkMsg uA "/unsolved 9") tkSolved
    (by decide) (by decide) rfl
  exact ⟨h.1, h.2.1⟩

/-- C5: in wizard step 2 (`AwaitRoom`), any input whose leading digit run
parses outside the corpus range (101-543 for corpus `"1"`, 1101-1644 for
corpus `"2"`) is answered with a single re-prompt and the state — wizard step
and collected room included — is returned exactly as it was.  (An over-long
input is also rejected before the range check, again without advancing.) -/
theorem c5_room_out_of_range_rejected (st : BotState) (m : Msg)
    (us : UserState) (room digits : String) (n : Nat)
    (_hstep : us.step = 2)
    (hroom : room = toUpperS (trimS m.body))
    (hdig : digits = takeWhileS room Char.isDigit)
    (hd : ¬ (digits = ""))
    (hn : n = (toNatS digits).getD 0)
    (hrange : (us.corpus = some "1" ∧ (n < 101 ∨ n > 543)) ∨
      (us.corpus = some "2" ∧ (n < 1101 ∨ n > 1644))) :
    (handleStep2 st m us).1 = st ∧
    ((handleStep2 st m us).2 = [Eff.roomTooLong] ∨
     (handleStep2 st m us).2 = [Eff.roomRangeC1] ∨
     (handleStep2 st m us).2 = [Eff.roomRangeC2]) := by
  subst hroom
  subst hdig
  subst hn
  by_cases hlen : lengthS (toUpperS (trimS m.body)) > 10
  · have hr : handleStep2 st m us = (st, [Eff.roomTooLong]) := by
      simp only [handleStep2]
      rw [if_pos hlen]
    rw [hr]
    exact ⟨rfl, Or.inl rfl⟩
  · rcases hrange with ⟨hc1, hrg⟩ | ⟨hc2, hrg⟩
    · have hr : handleStep2 st m us = (st, [Eff.roomRangeC1]) := by
        simp only [handleStep2]
        rw [if_neg hlen, if_neg hd, if_pos ⟨hc1, hrg⟩]
      rw [hr]
      exact ⟨rfl, Or.inr (Or.inl rfl)⟩
    · have hr : handleStep2 st m us = (st, [Eff.roomRangeC2]) := by
        simp only [handleStep2]
        rw [if_neg hlen, if_neg hd, if_neg (by simp [hc2]),
          if_pos ⟨hc2, hrg⟩]
      rw [hr]
      exact ⟨rfl, Or.inr (Or.inr rfl)⟩

/-- C5 witness: room `"1400"` under corpus `"1"` is rejected with the
corpus-1 range re-prompt and the state is unchanged. -/
theorem c5_room_out_of_range_rejected_witness :
    (handleStep2 baseState (mkMsg uA "1400")
        { step := 2, username := "U", userPhone := uA, attempts := 1,
          corpus := some "1" }).1 = baseState ∧
    ((handleStep2 baseState (mkMsg uA "1400")
        { step := 2, username := "U", userPhone := uA, attempts := 1,
          corpus := some "1" }).2 = [Eff.roomTooLong] ∨
     (handleStep2 baseState (mkMsg uA "1400")
        { step := 2, username := "U", userPhone := uA, attempts := 1,
          corpus := some "1" }).2 = [Eff.roomRangeC1] ∨
     (handleStep2 baseState (mkMsg uA "1400")
        { step := 2, username := "U", userPhone := uA, attempts := 1,
          corpus := some "1" }).2 = [Eff.roomRangeC2]) :=
  c5_room_out_of_range_rejected baseState (mkMsg uA "1400")
    { step := 2, username := "U", userPhone := uA, attempts := 1,
      corpus := some "1" } "1400" "1400" 1400 rfl (by decide) (by decide)
    (by decide) (by decide) (Or.inl ⟨rfl, by decide⟩)

/-- C3 (counterexample): a `/start` issued while a step-2 wizard with corpus
`"1"` exists does not operate on the existing state — it installs a fresh
step-1 state whose corpus is empty, discarding the collected progress. -/
theorem c3_start_discards_progress_counterexample :
    (stWiz.userStates uA).map UserState.corpus = some (some "1") ∧
    ((handleMessage stWiz (mkMsg uA "/start") 0 "t" false).state.userStates
      uA).map UserState.corpus = some none ∧
    ((handleMessage stWiz (mkMsg uA "/start") 0 "t" false).state.userStates
      uA).map UserState.step = some 1 :=
  ⟨rfl, rfl, rfl⟩

/-- C3 (amended): wizard states are keyed by identity, so at most one exists
per identity; a start request while one exists (rate-limit permitting)
replaces it with a single fresh step-1 state — no duplicate wizard is
created and no other identity's state is touched — but the previously
collected step/corpus/room progress is discarded, not preserved. -/
theorem c3_single_state_replaced_on_start (st : BotState) (m : Msg)
    (now : Nat) (s : UserState)
    (_hex : st.userStates m.mfrom = some s)
    (hnb : bannedO st.banned (normalizePhone m.mfrom) = false)
    (hrl : (canCreateTicket st.rate m.mfrom now).allowed = true) :
    (startNewTicket st m now).1.userStates m.mfrom =
      some { step := 1, username := m.notifyName.getD "İstifadəçi",
             userPhone := m.mfrom, attempts := 0 } ∧
    (∀ k, k ≠ m.mfrom →
      (startNewTicket st m now).1.userStates k = st.userStates k) := by
  constructor
  · simp [startNewTicket, hnb, hrl, putUS, upd]
  · intro k hk
    simp [startNewTicket, hnb, hrl, putUS, upd, hk]

/-- C3 witness: the amended replacement behaviour at the concrete state
`stWiz`. -/
theorem c3_single_state_replaced_on_start_witness :
    (startNewTicket stWiz (mkMsg uA "/start") 0).1.userStates uA =
      some { step := 1, username := "İstifadəçi", userPhone := uA,
             attempts := 0 } ∧
    (∀ k, k ≠ uA →
      (startNewTicket stWiz (mkMsg uA "/start") 0).1.userStates k =
        stWiz.userStates k) :=
  c3_single_state_replaced_on_start stWiz (mkMsg uA "/start") 0 usWiz
    (by decide) (by decide) (by decide)

/-- C2 (counterexample): with a login in progress at the username prompt, the
greeting word `"salam"` is not consumed as the username — the login state
stays at `askUsername` and the message instead starts a ticket wizard
(the greeting shortcut runs before the login interception). -/
theorem c2_salam_during_login_counterexample :
    (handleMessage stLogin (mkMsg uA "salam") 0 "t" false).tag =
      Consumer.greeting ∧
    (handleMessage stLogin (mkMsg uA "salam") 0 "t" false).state.adminLoginState
      uA = some LoginState.askUsername ∧
    ((handleMessage stLogin (mkMsg uA "salam") 0 "t" false).state.userStates
      uA).map UserState.step = some 1 :=
  ⟨rfl, rfl, rfl⟩

/-- C2 (amended): in a one-to-one conversation, any message from an identity
with an active login state that reaches the main dispatch (non-empty or
carrying media, within the media size limit, sender not banned) and is not
exactly the greeting word is fully consumed by the login state machine: the
consuming branch is the login interception, the wizard states and the ticket
store are untouched, and at the username prompt the message text (trimmed) is
captured as the username.  The greeting word instead starts the ticket
wizard. -/
theorem c2_login_consumes_nongreeting (st : BotState) (m : Msg) (now : Nat)
    (nowStr : String) (fail : Bool) (ls : LoginState)
    (hlogin : st.adminLoginState m.mfrom = some ls)
    (hbody : ¬ (m.body = "" ∧ m.mediaBytes = none))
    (hmedia : ¬ (m.mediaBytes.getD 0 > 5 * 1024 * 1024))
    (hnb : bannedO st.banned (normalizePhone m.mfrom) = false)
    (hns : (!(startsWithS (trimS m.body) "/") &&
      (toLowerS (trimS m.body) == "salam")) = false) :
    (mainSection st m false m.mfrom now nowStr fail).tag =
      Consumer.loginStep ∧
    (mainSection st m false m.mfrom now nowStr fail).state.userStates =
      st.userStates ∧
    (mainSection st m false m.mfrom now nowStr fail).state.db = st.db ∧
    (ls = LoginState.askUsername →
      (mainSection st m false m.mfrom now nowStr fail).state.adminLoginState
        m.mfrom = some (LoginState.askPassword (trimS m.body))) := by
  cases ls with
  | askUsername =>
    have hr : mainSection st m false m.mfrom now nowStr fail =
        ⟨{ st with adminLoginState := upd st.adminLoginState m.mfrom (some (LoginState.askPassword (trimS m.body))) }, [Eff.promptPassword], Consumer.loginStep⟩ := by
      simp only [mainSection, hlogin, Bool.false_eq_true, if_false]
      rw [if_neg hbody, if_neg hmedia, if_neg (by simp [hnb]),
        if_neg (by simp [hns])]
    rw [hr]
    refine ⟨rfl, rfl, rfl, fun _ => ?_⟩
    simp [upd]
  | askPassword username =>
    by_cases hcred : username = st.credUser ∧ trimS m.body = st.credPass
    · have hr : (mainSection st m false m.mfrom now nowStr fail).tag =
          Consumer.loginStep ∧
          (mainSection st m false m.mfrom now nowStr fail).state.userStates =
            st.userStates ∧
          (mainSection st m false m.mfrom now nowStr fail).state.db =
            st.db := by
        simp only [mainSection, hlogin, Bool.false_eq_true, if_false]
        rw [if_neg hbody, if_neg hmedia, if_neg (by simp [hnb]),
          if_neg (by simp [hns]), if_pos hcred]
        exact ⟨rfl, rfl, rfl⟩
      exact ⟨hr.1, hr.2.1, hr.2.2, fun h => by cases h⟩
    · by_cases hatt :
          st.failedLoginAttempts ((normalizePhone m.mfrom).getD "") + 1 ≥ 3
      · have hr : (mainSection st m false m.mfrom now nowStr fail).tag =
            Consumer.loginStep ∧
            (mainSection st m false m.mfrom now nowStr
              fail).state.userStates = st.userStates ∧
            (mainSection st m false m.mfrom now nowStr fail).state.db =
              st.db := by
          simp only [mainSection, hlogin, Bool.false_eq_true, if_false]
          rw [if_neg hbody, if_neg hmedia, if_neg (by simp [hnb]),
            if_neg (by simp [hns]), if_neg hcred, if_pos hatt]
          exact ⟨rfl, rfl, rfl⟩
        exact ⟨hr.1, hr.2.1, hr.2.2, fun h => by cases h⟩
      · have hr : (mainSection st m false m.mfrom now nowStr fail).tag =
            Consumer.loginStep ∧
            (mainSection st m false m.mfrom now nowStr
              fail).state.userStates = st.userStates ∧
            (mainSection st m false m.mfrom now nowStr fail).state.db =
              st.db := by
          simp only [mainSection, hlogin, Bool.false_eq_true, if_false]
          rw [if_neg hbody, if_neg hmedia, if_neg (by simp [hnb]),
            if_neg (by simp [hns]), if_neg hcred, if_neg hatt]
          exact ⟨rfl, rfl, rfl⟩
        exact ⟨hr.1, hr.2.1, hr.2.2, fun h => by cases h⟩

/-- C2 witness: the text `"hello"` at the username prompt is captured as the
username (state moves to the password prompt), with wizard states and the
store untouched. -/
theorem c2_login_consumes_nongreeting_witness :
    (mainSection stLogin (mkMsg uA "hello") false uA 0 "t" false).tag =
      Consumer.loginStep ∧
    (mainSection stLogin (mkMsg uA "hello") false uA 0 "t" false).state.userStates =
      stLogin.userStates ∧
    (mainSection stLogin (mkMsg uA "hello") false uA 0 "t" false).state.db =
      stLogin.db ∧
    (LoginState.askUsername = LoginState.askUsername →
      (mainSection stLogin (mkMsg uA "hello") false uA 0 "t"
        false).state.adminLoginState uA =
          some (LoginState.askPassword (trimS "hello"))) :=
  c2_login_consumes_nongreeting stLogin (mkMsg uA "hello") 0 "t" false
    .askUsername (by decide) (by simp [mkMsg]) (by decide) (by decide)
    (by decide)

/-- Inserting into a set-like list when absent makes membership hold. -/
theorem contains_condInsert (l : List String) (x : String) :
    (if l.contains x then l else x :: l).contains x = true := by
  split_ifs with h
  · exact h
  · simp

/-- A banned identity is in the registry after `banUser`. -/
theorem contains_banUser (l : List String) (p : String) :
    (banUser l p).contains p = true := by
  unfold banUser
  exact contains_condInsert l p

/-- C8: at the password step of the login interception, a third consecutive
wrong password (failed-attempt counter already at 2) puts the normalized
identity into the Ban Registry and resets its counter to zero; an earlier
wrong password only increments the counter without banning; a correct
credential pair clears the counter (and creates the session) instead. -/
theorem c8_three_failed_logins_ban (st : BotState) (m : Msg) (now : Nat)
    (nowStr : String) (fail : Bool) (username p : String)
    (hlogin : st.adminLoginState m.mfrom =
      some (LoginState.askPassword username))
    (hbody : ¬ (m.body = "" ∧ m.mediaBytes = none))
    (hmedia : ¬ (m.mediaBytes.getD 0 > 5 * 1024 * 1024))
    (hnb : bannedO st.banned (normalizePhone m.mfrom) = false)
    (hns : (!(startsWithS (trimS m.body) "/") &&
      (toLowerS (trimS m.body) == "salam")) = false)
    (hnorm : normalizePhone m.mfrom = some p) :
    (¬ (username = st.credUser ∧ trimS m.body = st.credPass) →
      st.failedLoginAttempts p = 2 →
      (mainSection st m false m.mfrom now nowStr fail).state.banned.contains
        p = true ∧
      (mainSection st m false m.mfrom now nowStr
        fail).state.failedLoginAttempts p = 0) ∧
    (¬ (username = st.credUser ∧ trimS m.body = st.credPass) →
      st.failedLoginAttempts p < 2 →
      (mainSection st m false m.mfrom now nowStr
        fail).state.failedLoginAttempts p = st.failedLoginAttempts p + 1 ∧
      (mainSection st m false m.mfrom now nowStr fail).state.banned =
        st.banned) ∧
    ((username = st.credUser ∧ trimS m.body = st.credPass) →
      (mainSection st m false m.mfrom now nowStr
        fail).state.failedLoginAttempts p = 0 ∧
      (mainSection st m false m.mfrom now nowStr
        fail).state.adminSessions.contains m.mfrom = true) := by
  refine ⟨fun hcred hcnt => ?_, fun hcred hcnt => ?_, fun hcred => ?_⟩
  · have hatt : st.failedLoginAttempts ((normalizePhone m.mfrom).getD "") + 1
        ≥ 3 := by
      rw [hnorm]
      simp [hcnt]
    have hr : (mainSection st m false m.mfrom now nowStr fail).state.banned =
        banUserO st.banned (normalizePhone m.mfrom) ∧
        (mainSection st m false m.mfrom now nowStr
          fail).state.failedLoginAttempts =
          updN st.failedLoginAttempts ((normalizePhone m.mfrom).getD "")
            0 := by
      simp only [mainSection, hlogin, Bool.false_eq_true, if_false]
      rw [if_neg hbody, if_neg hmedia, if_neg (by simp [hnb]),
        if_neg (by simp [hns]), if_neg hcred, if_pos hatt]
      exact ⟨rfl, rfl⟩
    rw [hr.1, hr.2, hnorm]
    refine ⟨contains_banUser _ _, ?_⟩
    simp [updN]
  · have hatt : ¬ (st.failedLoginAttempts ((normalizePhone m.mfrom).getD "")
        + 1 ≥ 3) := by
      rw [hnorm]
      simp only [Option.getD_some]
      omega
    have hr : (mainSection st m false m.mfrom now nowStr fail).state.banned =
        st.banned ∧
        (mainSection st m false m.mfrom now nowStr
          fail).state.failedLoginAttempts =
          updN st.failedLoginAttempts ((normalizePhone m.mfrom).getD "")
            (st.failedLoginAttempts ((normalizePhone m.mfrom).getD "") +
              1) := by
      simp only [mainSection, hlogin, Bool.false_eq_true, if_false]
      rw [if_neg hbody, if_neg hmedia, if_neg (by simp [hnb]),
        if_neg (by simp [hns]), if_neg hcred, if_neg hatt]
      exact ⟨rfl, rfl⟩
    rw [hr.2, hr.1, hnorm]
    simp [updN]
  · have hr : (mainSection st m false m.mfrom now nowStr
        fail).state.failedLoginAttempts =
        updN st.failedLoginAttempts ((normalizePhone m.mfrom).getD "") 0 ∧
        (mainSection st m false m.mfrom now nowStr
          fail).state.adminSessions =
          (if st.adminSessions.contains m.mfrom then st.adminSessions
           else m.mfrom :: st.adminSessions) := by
      simp only [mainSection, hlogin, Bool.false_eq_true, if_false]
      rw [if_neg hbody, if_neg hmedia, if_neg (by simp [hnb]),
        if_neg (by simp [hns]), if_pos hcred]
      exact ⟨rfl, rfl⟩
    rw [hr.1, hr.2, hnorm]
    refine ⟨by simp [updN], contains_condInsert _ _⟩

/-- C8 witness: a third wrong password from `uA` lands the normalized
identity in the Ban Registry with the counter reset to zero. -/
theorem c8_three_failed_logins_ban_witness :
    (mainSection stPw (mkMsg uA "wrongpass") false uA 0 "t"
      false).state.banned.contains uAn = true ∧
    (mainSection stPw (mkMsg uA "wrongpass") false uA 0 "t"
      false).state.failedLoginAttempts uAn = 0 :=
  (c8_three_failed_logins_ban stPw (mkMsg uA "wrongpass") 0 "t" false
    "admin" uAn (by decide) (by decide) (by decide) (by decide) (by decide)
    (by decide)).1 (by decide) (by decide)

/-- `handleStep1` never emits the too-many-attempts apology. -/
theorem no_apology_step1 (st : BotState) (m : Msg) (us : UserState) :
    ∀ e ∈ (handleStep1 st m us).2, e ≠ Eff.tooManyAttempts := by
  intro e he
  unfold handleStep1 at he
  split at he <;> simp_all

/-- `handleStep2` never emits the too-many-attempts apology. -/
theorem no_apology_step2 (st : BotState) (m : Msg) (us : UserState) :
    ∀ e ∈ (handleStep2 st m us).2, e ≠ Eff.tooManyAttempts := by
  intro e he
  simp only [handleStep2] at he
  split_ifs at he <;> simp_all

/-- `completeTicket` never emits the too-many-attempts apology. -/
theorem no_apology_complete (st : BotState) (us : UserState)
    (nowStr : String) (now : Nat) :
    ∀ e ∈ (completeTicket st us nowStr now).2, e ≠ Eff.tooManyAttempts := by
  intro e he
  unfold completeTicket at he
  rw [List.mem_append] at he
  rcases he with he | he
  · simp at he
    subst he
    simp
  · split at he <;> simp_all

/-- `handleStep3` never emits the too-many-attempts apology. -/
theorem no_apology_step3 (st : BotState) (m : Msg) (us : UserState)
    (nowStr : String) (now : Nat) :
    ∀ e ∈ (handleStep3 st m us nowStr now).2, e ≠ Eff.tooManyAttempts := by
  intro e he
  simp only [handleStep3] at he
  split at he
  · simp_all
  · split at he
    · simp_all
    · exact no_apology_complete _ _ _ _ e he

/-- `handleStep4` never emits the too-many-attempts apology. -/
theorem no_apology_step4 (st : BotState) (m : Msg) (us : UserState)
    (nowStr : String) (now : Nat) :
    ∀ e ∈ (handleStep4 st m us nowStr now).2, e ≠ Eff.tooManyAttempts := by
  intro e he
  simp only [handleStep4] at he
  split_ifs at he
  · simp_all
  · simp_all
  · exact no_apology_complete _ _ _ _ e he

/-- C9 (amended): a wizard reply on which processing fails terminates the
wizard with the apology exactly when the per-conversation attempt counter —
which counts every wizard reply, valid or invalid, not only failures — has
reached 3 including the failing reply; a failure on an earlier reply keeps
the state (counter bumped) with a retry message, and failure-free replies
never produce the apology. -/
theorem c9_failure_termination_policy (st : BotState) (m : Msg) (now : Nat)
    (nowStr : String) (us : UserState)
    (hus : st.userStates m.mfrom = some us) :
    (us.attempts + 1 ≥ 3 →
      (continueTicket st m now nowStr true).1.userStates m.mfrom = none ∧
      (continueTicket st m now nowStr true).2 = [Eff.tooManyAttempts]) ∧
    (us.attempts + 1 < 3 →
      (continueTicket st m now nowStr true).1.userStates m.mfrom =
        some { us with attempts := us.attempts + 1 } ∧
      (continueTicket st m now nowStr true).2 = [Eff.stepError]) ∧
    (∀ e ∈ (continueTicket st m now nowStr false).2,
      e ≠ Eff.tooManyAttempts) := by
  refine ⟨fun h3 => ?_, fun h3 => ?_, ?_⟩
  · simp [continueTicket, hus, handleTicketError, putUS, upd, h3]
  · have h3' : ¬ (us.attempts + 1 ≥ 3) := by omega
    simp [continueTicket, hus, handleTicketError, putUS, upd, h3']
  · intro e he
    simp only [continueTicket, hus, Bool.false_eq_true, if_false] at he
    split_ifs at he
    · exact no_apology_step1 _ _ _ e he
    · exact no_apology_step2 _ _ _ e he
    · exact no_apology_step3 _ _ _ _ _ e he
    · exact no_apology_step4 _ _ _ _ _ e he
    · simp at he

/-- C9 witness: a failure on the first reply of a fresh wizard keeps the
state (counter bumped to 1) and asks to retry. -/
theorem c9_failure_termination_policy_witness :
    (continueTicket stWizA (mkMsg uA "x") 0 "t" true).1.userStates uA =
      some { step := 1, username := "U", userPhone := uA, attempts := 1 } ∧
    (continueTicket stWizA (mkMsg uA "x") 0 "t" true).2 = [Eff.stepError] :=
  (c9_failure_termination_policy stWizA (mkMsg uA "x") 0 "t" usWizA
    (by decide)).2.1 (by decide)

/-- C9 (counterexample): in a conversation whose two previous replies were
handled successfully (attempt counter 2, zero failures so far), the very
first processing failure already terminates the wizard with the apology —
the claim that more than 3 processing failures are required is false. -/
theorem c9_single_failure_terminates_counterexample :
    (continueTicket stWiz3 (mkMsg uA "3") 0 "t" true).1.userStates uA =
      none ∧
    (continueTicket stWiz3 (mkMsg uA "3") 0 "t" true).2 =
      [Eff.tooManyAttempts] :=
  ⟨rfl, rfl⟩

/-- With pairwise-distinct ids, at most one row carries a given id. -/
theorem countP_id_le_one (l : List Ticket) (i : Nat)
    (hnodup : (l.map Ticket.id).Nodup) :
    l.countP (fun t => t.id == i) ≤ 1 := by
  have h := List.nodup_iff_count_le_one.mp hnodup i
  rw [List.count_eq_countP, List.countP_map] at h
  exact h

/-- The UPDATE performed by a successful `/assign` preserves the
one-active-ticket-per-admin invariant: the caller had no active ticket and
the target was unassigned. -/
theorem assign_preserves_atMostOne (l : List Ticket) (ticket : Ticket)
    (adminPhone : Option String) (adminName : String)
    (hnodup : (l.map Ticket.id).Nodup)
    (hinv : ∀ b, l.countP (isActiveFor b) ≤ 1)
    (hnone : ∀ a, adminPhone = some a → l.find? (isActiveFor a) = none) :
    ∀ b, (l.map (fun t => if t.id == ticket.id then
        { t with assigned_admin := adminPhone,
                 assigned_admin_name := some adminName }
      else t)).countP (isActiveFor b) ≤ 1 := by
  intro b
  rw [List.countP_map]
  by_cases hb : adminPhone = some b
  · have hfn := hnone b hb
    refine le_trans (List.countP_mono_left ?_)
      (countP_id_le_one l ticket.id hnodup)
    intro t ht hat
    by_cases hid : (t.id == ticket.id) = true
    · exact hid
    · exfalso
      simp only [Function.comp] at hat
      rw [if_neg hid] at hat
      exact (List.find?_eq_none.mp hfn t ht) hat
  · refine le_trans (List.countP_mono_left ?_) (hinv b)
    intro t ht hat
    by_cases hid : (t.id == ticket.id) = true
    · exfalso
      simp only [Function.comp] at hat
      rw [if_pos hid] at hat
      simp only [isActiveFor] at hat
      have hmem : adminPhone = some b := by
        have := (Bool.and_eq_true _ _).mp hat
        simpa using this.1
      exact hb hmem
    · simp only [Function.comp] at hat
      rw [if_neg hid] at hat
      exact hat

/-- C6: a `/assign` by a caller who already holds an active (neither solved
nor long-term) assigned ticket is rejected with a message naming that held
ticket's id, and no state is mutated; and `handleAssign` preserves the
one-active-ticket-per-admin invariant (over a store with distinct ids), so
an admin holds at most one non-terminal assignment at a time. -/
theorem c6_assign_exclusivity (st : BotState) (m : Msg) :
    (∀ (a : String) (held : Ticket), endsWithS m.mfrom "@g.us" = false →
      2 ≤ (jsSplit m.body " ").length →
      normalizePhone m.mfrom = some a →
      st.db.tickets.find? (isActiveFor a) = some held →
      handleAssign st m = (st, [Eff.assignBusy held.id])) ∧
    ((st.db.tickets.map Ticket.id).Nodup → atMostOneActive st.db →
      atMostOneActive (handleAssign st m).1.db) := by
  constructor
  · intro a held hg hlen hnorm hfind
    have hlen' : ¬ ((jsSplit m.body " ").length < 2) := by omega
    simp [handleAssign, hg, hlen', hnorm, hfind]
  · intro hnodup hinv
    by_cases hg : endsWithS m.mfrom "@g.us" = true
    · simpa [handleAssign, hg] using hinv
    · have hg' : endsWithS m.mfrom "@g.us" = false := by
        simpa using hg
      by_cases hlen : (jsSplit m.body " ").length < 2
      · simpa [handleAssign, hg', hlen] using hinv
      · cases hnorm : normalizePhone m.mfrom with
        | none =>
          cases hgb : st.db.getById
              (sqlNat ((jsSplit m.body " ")[1]?.getD "")) with
          | none => simpa [handleAssign, hg', hlen, hnorm, hgb] using hinv
          | some ticket =>
            by_cases hsol : ticket.status = "solved"
            · simpa [handleAssign, hg', hlen, hnorm, hgb, hsol] using hinv
            · by_cases hlt : ticket.status = "long_term"
              · simpa [handleAssign, hg', hlen, hnorm, hgb, hsol, hlt]
                  using hinv
              · cases hta : ticket.assigned_admin with
                | some b =>
                  simpa [handleAssign, hg', hlen, hnorm, hgb, hsol, hlt,
                    hta] using hinv
                | none =>
                  have key := assign_preserves_atMostOne st.db.tickets ticket
                    none
                    ((m.notifyName.getD ((none : Option String).getD "")))
                    hnodup hinv (fun a ha => by cases ha)
                  intro b
                  have hrun : (handleAssign st m).1.db.tickets = st.db.tickets.map (fun t => if t.id == ticket.id then { t with assigned_admin := none, assigned_admin_name := some (m.notifyName.getD ((none : Option String).getD "")) } else t) := by
                    simp [handleAssign, hg', hlen, hnorm, hgb, hsol, hlt,
                      hta, DB.updateTicket]
                  rw [hrun]
                  exact key b
        | some a =>
          cases hfa : st.db.tickets.find? (isActiveFor a) with
          | some held =>
            simpa [handleAssign, hg', hlen, hnorm, hfa] using hinv
          | none =>
            cases hgb : st.db.getById
                (sqlNat ((jsSplit m.body " ")[1]?.getD "")) with
            | none =>
              simpa [handleAssign, hg', hlen, hnorm, hfa, hgb] using hinv
            | some ticket =>
              by_cases hsol : ticket.status = "solved"
              · simpa [handleAssign, hg', hlen, hnorm, hfa, hgb, hsol]
                  using hinv
              · by_cases hlt : ticket.status = "long_term"
                · simpa [handleAssign, hg', hlen, hnorm, hfa, hgb, hsol, hlt]
                    using hinv
                · cases hta : ticket.assigned_admin with
                  | some b =>
                    by_cases hmine : a = b
                    · subst hmine
                      simpa [handleAssign, hg', hlen, hnorm, hfa, hgb, hsol,
                        hlt, hta] using hinv
                    · simpa [handleAssign, hg', hlen, hnorm, hfa, hgb, hsol,
                        hlt, hta, hmine] using hinv
                  | none =>
                    have key := assign_preserves_atMostOne st.db.tickets
                      ticket (some a)
                      (((some a).bind st.adminProfiles).getD
                        (m.notifyName.getD ((some a : Option String).getD "")))
                      hnodup hinv
                      (fun a' ha' => by
                        injection ha' with ha'
                        subst ha'
                        exact hfa)
                    intro b
                    have hrun : (handleAssign st m).1.db.tickets = st.db.tickets.map (fun t => if t.id == ticket.id then { t with assigned_admin := some a, assigned_admin_name := some (((some a).bind st.adminProfiles).getD (m.notifyName.getD ((some a : Option String).getD ""))) } else t) := by
                      simp [handleAssign, hg', hlen, hnorm, hfa, hgb, hsol,
                        hlt, hta, DB.updateTicket]
                    rw [hrun]
                    exact key b

/-- C6 witness: the holder of open ticket 5 is rejected on `/assign 7` with a
message naming ticket 5, and the invariant is preserved. -/
theorem c6_assign_exclusivity_witness :
    handleAssign stAssign (mkMsg "994509999999@c.us" "/assign 7") =
      (stAssign, [Eff.assignBusy 5]) ∧
    atMostOneActive
      (handleAssign stAssign (mkMsg "994509999999@c.us" "/assign 7")).1.db := by
  have hinv : atMostOneActive stAssign.db := by
    intro b
    simp only [stAssign, baseState, atMostOneActive, isActiveFor, tkAssigned,
      tkOpen, List.countP_cons, List.countP_nil]
    split_ifs <;> simp_all
  exact ⟨(c6_assign_exclusivity stAssign
      (mkMsg "994509999999@c.us" "/assign 7")).1 "994509999999" tkAssigned
      (by decide) (by decide) (by decide) (by decide),
    (c6_assign_exclusivity stAssign (mkMsg "994509999999@c.us" "/assign 7")).2
      (by decide) hinv⟩

/-- C4: for an identity with no prior state (sender not banned, rate limiter
permitting), starting the wizard and replying `"1"`, `"205"`, `"3"` appends
exactly one ticket to the store — corpus `"1"`, room `"205"`, problem label
equal to catalog entry 3, status `open` — and afterwards no ConversationState
exists for that identity. -/
theorem c4_wizard_happy_path (st : BotState) (u : String) (now : Nat)
    (nowStr : String)
    (_hns : st.userStates u = none)
    (hnb : bannedO st.banned (normalizePhone u) = false)
    (hrl : (canCreateTicket st.rate u now).allowed = true) :
    (wizardRun3 st u now nowStr).db.tickets = st.db.tickets ++
      [{ id := st.db.nextId, user_id := u, username := "İstifadəçi",
         phone := formatPhoneNumber u, corpus := "1", room := "205",
         problem_type := "🧾 Printer işləmir", status := "open",
         created_at := nowStr }] ∧
    (wizardRun3 st u now nowStr).userStates u = none := by
  constructor <;>
    simp +decide [wizardRun3, startNewTicket, hnb, hrl, continueTicket,
      putUS, upd, handleStep1, handleStep2, handleStep3, completeTicket,
      mkMsg, DB.insertTicket, problemTypesExtended]

/-- C4 witness: the run from the quiescent state persists exactly ticket 1
with the expected fields and leaves no wizard state. -/
theorem c4_wizard_happy_path_witness :
    (wizardRun3 baseState uA 0 "t").db.tickets = baseState.db.tickets ++
      [{ id := 1, user_id := uA, username := "İstifadəçi",
         phone := formatPhoneNumber uA, corpus := "1", room := "205",
         problem_type := "🧾 Printer işləmir", status := "open",
         created_at := "t" }] ∧
    (wizardRun3 baseState uA 0 "t").userStates uA = none :=
  c4_wizard_happy_path baseState uA 0 "t" (by decide) (by decide) (by decide)

end Bot
